import Mathlib

/-!
Verification of the query-intent pipeline of the MEDICO_AI_PRO repository
(src/utils/llm_handler.py, class LLMHandler).

The pipeline is shallowly embedded: pure string processing is translated to
executable Lean functions over `List Char` and `String`; the two external
capabilities (the language model and the storage layer) are explicit function
parameters; Python exceptions are modelled with `Except String`.

Modelling conventions, stated once here:
- Python `str.lower` / `str.upper` / `re` word characters are modelled on the
  ASCII range (`Char.toLower`, `Char.toUpper`, `Char.isAlphanum`); all keyword
  patterns and SQL keywords in the source are ASCII, so the modelled behaviour
  agrees with CPython on ASCII text.
- A pandas DataFrame is modelled by its row count, its ordered column list
  (name and dtype string, as the source only inspects those), and the textual
  renderings the source interpolates into f-strings (cell [0,0], formatted
  mean and median, most frequent value, example values).  Floating point
  formatting is kept abstract as those rendered strings.
- Line 176 of src/utils/llm_handler.py is truncated in the repository
  (an unterminated regex literal).  Modelled from the spec: section 4.4 step 1
  strips code-fence/markdown artifacts, so that substitution is modelled as
  removing occurrences of three backticks followed by sql and trailing
  whitespace; the following intact line removes three backticks plus trailing
  whitespace.  No claim below depends on inputs containing backticks.
-/

namespace MedicoAI

/-- The apostrophe character, kept out of string literals. -/
def sq : Char := Char.ofNat 39

/-- One-character string holding an apostrophe. -/
def sqS : String := String.mk [sq]

/-- The backtick character, kept out of string and char literals. -/
def btick : Char := Char.ofNat 96

/-- ASCII lowercasing of a character list; models Python str.lower. -/
def lowerL (s : List Char) : List Char := s.map Char.toLower

/-- ASCII uppercasing of a character list; models Python str.upper. -/
def upperL (s : List Char) : List Char := s.map Char.toUpper

/-- Word character in the sense of the regex metacharacter backslash-b
(ASCII model): alphanumeric or underscore. -/
def isWordChar (c : Char) : Bool := c.isAlphanum || c == '_'

/-- Is there a word boundary immediately before position `i` of `s`. -/
def boundaryBefore (s : List Char) : Nat → Bool
  | 0 => true
  | j + 1 =>
    match s.get? j with
    | some c => !isWordChar c
    | none => true

/-- Is there a word boundary immediately after position `j - 1`, that is,
position `j` starts a non-word character or is the end of the string. -/
def boundaryAfter (s : List Char) (j : Nat) : Bool :=
  match s.get? j with
  | some c => !isWordChar c
  | none => true

/-- Keyword `kw` occurs at position `i` of `s` with word boundaries on both
sides.  All keywords of the pattern table begin and end with word
characters, so this is exactly a regex match of backslash-b kw backslash-b
at `i`. -/
def wordMatchAt (s kw : List Char) (i : Nat) : Bool :=
  kw.isPrefixOf (s.drop i) && boundaryBefore s i && boundaryAfter s (i + kw.length)

/-- Existence of a word-bounded occurrence of `kw` anywhere in `s`; models
re.search of a single word-bounded alternative. -/
def wordSearch (s kw : List Char) : Bool :=
  (List.range (s.length + 1)).any (fun i => wordMatchAt s kw i)

/-- Models re.search of a pattern of the shape backslash-b (a1|...|an)
backslash-b: some alternative occurs word-bounded in `s`. -/
def reWordAltSearch (s : List Char) (alts : List String) : Bool :=
  alts.any (fun kw => wordSearch s kw.data)

/-- The ordered pattern table of LLMHandler.load_query_patterns
(src/utils/llm_handler.py lines 45-58).  Python dict literals preserve
insertion order, so iteration order is the declaration order below. -/
def query_patterns : List (String × List String) :=
  [("count", ["how many", "count", "number of", "total"]),
   ("average", ["average", "mean", "avg"]),
   ("max", ["maximum", "max", "highest", "largest"]),
   ("min", ["minimum", "min", "lowest", "smallest"]),
   ("sum", ["sum", "total", "aggregate"]),
   ("distribution", ["distribution", "spread", "range"]),
   ("correlation", ["correlation", "relationship", "related", "associated"]),
   ("filter", ["where", "filter", "show me", "find"]),
   ("group", ["group by", "grouped", "category", "categories"]),
   ("trend", ["trend", "over time", "timeline", "change"])]

/-- Does the lowercased query match the word-bounded alternatives of one
pattern-table entry. -/
def intentMatches (q : String) (p : String × List String) : Bool :=
  reWordAltSearch (lowerL q.data) p.2

/-- LLMHandler.classify_query (lines 91-99): first pattern-table entry whose
regex matches the lowercased query wins; otherwise the literal "general". -/
def classify_query (q : String) : String :=
  match query_patterns.find? (fun p => intentMatches q p) with
  | some p => p.1
  | none => "general"

/-- The closed intent enumeration of the spec: the ten pattern intents plus
the default "general". -/
def allIntents : List String :=
  ["count", "average", "max", "min", "sum", "distribution", "correlation",
   "filter", "group", "trend", "general"]

/-- One DataFrame column as the source inspects it: name, dtype string, the
metadata used by build_data_context, and the f-string renderings of its
statistics used by the two summary functions. -/
structure Column where
  name : String
  dtype : String
  nullCount : Nat
  uniqueCount : Nat
  examplesFmt : String
  meanFmt : String
  medianFmt : String
  topFmt : String

/-- A pandas DataFrame as the handler observes it: ordered columns, row
count, and the rendering of cell [0,0]. -/
structure DataFrame where
  columns : List Column
  nrows : Nat
  cell00 : String

/-- One entry of processed_data: table name, dataframe, and the rendering of
df.head(3).to_string() used by handle_query_error. -/
structure Dataset where
  table : String
  df : DataFrame
  sampleHead3 : String

/-- The dict returned by the pipeline (keys response/data/type/sql_query/
suggest_visualization). -/
structure Response where
  response : String
  data : Option DataFrame
  type : String
  sql_query : Option String
  suggest_visualization : Bool

/-- Outcome of one call to the external language-model capability. -/
inductive ModelOutcome where
  | ok (text : String)
  | failure (msg : String)

/-- The external language-model capability: prompt to outcome. -/
abbrev Model := String → ModelOutcome

/-- The external storage capability: SQL text to result set or failure. -/
abbrev Executor := String → Except String DataFrame

/-- Python str.rstrip applied with the single character semicolon. -/
def rstripSemis (s : List Char) : List Char :=
  (s.reverse.dropWhile (fun c => c == ';')).reverse

/-- Python str.strip: remove leading and trailing whitespace. -/
def stripWs (s : List Char) : List Char :=
  ((s.dropWhile Char.isWhitespace).reverse.dropWhile Char.isWhitespace).reverse

/-- Python str.strip on a String. -/
def pyStrip (s : String) : String := String.mk (stripWs s.data)

/-- The code-fence tag of three backticks followed by sql. -/
def fenceSql : List Char := [btick, btick, btick, 's', 'q', 'l']

/-- The code-fence tag of three backticks. -/
def fenceTicks : List Char := [btick, btick, btick]

/-- Fuel-indexed scan performing re.sub of the pattern tag-then-whitespace
with the empty replacement: leftmost non-overlapping matches of `tag`
followed by a greedy whitespace run are removed.  The fuel dominates the
list length, so `subFence` below never exhausts it. -/
def subFenceAux (tag : List Char) : Nat → List Char → List Char
  | _, [] => []
  | 0, s => s
  | n + 1, c :: cs =>
    if tag.isPrefixOf (c :: cs) then
      subFenceAux tag n ((cs.drop (tag.length - 1)).dropWhile Char.isWhitespace)
    else
      c :: subFenceAux tag n cs

/-- re.sub of tag-then-whitespace with empty replacement. -/
def subFence (tag : List Char) (s : List Char) : List Char :=
  subFenceAux tag s.length s

/-- Substring test: does `t` occur contiguously in `s`.  Models the Python
`in` operator on strings. -/
def containsSub (s t : List Char) : Bool :=
  (List.range (s.length + 1)).any (fun i => t.isPrefixOf (s.drop i))

/-- The deny list of LLMHandler.clean_sql_query, in source order. -/
def dangerous_keywords : List String :=
  ["DROP", "DELETE", "UPDATE", "INSERT", "CREATE", "ALTER"]

/-- The artifact-stripping part of clean_sql_query: the two fence
substitutions, then rstrip of semicolons, then strip of whitespace. -/
def cleanStrip (s : List Char) : List Char :=
  stripWs (rstripSemis (subFence fenceTicks (subFence fenceSql s)))

/-- LLMHandler.clean_sql_query (lines 173-190): strip artifacts, then raise
ValueError at the first deny-listed keyword occurring in the uppercased text
unless the uppercased text starts with SELECT. -/
def clean_sql_query (q : String) : Except String String :=
  let query := cleanStrip q.data
  let query_upper := upperL query
  match dangerous_keywords.find?
      (fun kw => containsSub query_upper kw.data &&
        !(("SELECT".data).isPrefixOf query_upper)) with
  | some kw => Except.error ("Dangerous SQL operation detected: " ++ kw)
  | none => Except.ok (String.mk query)

/-- Per-column line of build_data_context (lines 117-130). -/
def column_info (c : Column) : String :=
  let base := "  - " ++ c.name ++ " (" ++ c.dtype ++ "): " ++
    toString c.uniqueCount ++ " unique values, " ++
    toString c.nullCount ++ " null values"
  if c.dtype == "object" && decide (c.uniqueCount ≤ 10) then
    base ++ ", examples: " ++ c.examplesFmt
  else base

/-- LLMHandler.build_data_context (lines 101-134). -/
def build_data_context (processed_data : List Dataset) : String :=
  String.intercalate "\n\n" (processed_data.map (fun d =>
    "\nTable: " ++ d.table ++ "\nRows: " ++ toString d.df.nrows ++
    "\nColumns: " ++ toString d.df.columns.length ++ "\nColumn Details:\n" ++
    String.join (d.df.columns.map (fun c => column_info c ++ "\n"))))

/-- The SQL-generation prompt of generate_sql_query (lines 139-159). -/
def sql_prompt (query data_context query_type : String) : String :=
  "\nYou are an expert SQL query generator for health data analysis. \n\nData Context:\n"
  ++ data_context ++ "\n\nUser Query: \"" ++ query ++ "\"\nQuery Type: " ++ query_type
  ++ "\n\nGenerate a single, syntactically correct SQLite query that answers the user"
  ++ sqS ++ "s question.\n\nRules:\n1. Return ONLY the SQL query, no explanations or formatting\n2. Use proper SQLite syntax\n3. Handle potential NULL values appropriately\n4. For aggregations, use appropriate GROUP BY clauses\n5. Use LIMIT for large result sets when appropriate\n6. Table names are exact as shown in the context\n\nSQL Query:\n"

/-- LLMHandler.generate_sql_query (lines 136-171): one model call, strip the
text, sanitize it; any failure (model failure or ValueError from the
sanitizer) is re-raised as the wrapped generation exception. -/
def generate_sql_query (model : Model) (query data_context query_type : String) :
    Except String String :=
  match model (sql_prompt query data_context query_type) with
  | ModelOutcome.failure e => Except.error ("Failed to generate SQL query: " ++ e)
  | ModelOutcome.ok t =>
    match clean_sql_query (pyStrip t) with
    | Except.error e => Except.error ("Failed to generate SQL query: " ++ e)
    | Except.ok sql => Except.ok sql

/-- Numeric dtypes as the source tests them (pandas number kinds restricted
to the two names the handler compares against). -/
def isNumericDtype (d : String) : Bool := d == "int64" || d == "float64"

/-- LLMHandler.get_result_summary (lines 226-245): mean/median of up to the
first three numeric columns, most frequent value of up to the first two
object columns, joined with semicolons. -/
def get_result_summary (df : DataFrame) : String :=
  let numParts := ((df.columns.filter (fun c => isNumericDtype c.dtype)).take 3).map
    (fun c => c.name ++ ": mean=" ++ c.meanFmt ++ ", median=" ++ c.medianFmt)
  let catParts := ((df.columns.filter (fun c => c.dtype == "object")).take 2).map
    (fun c => c.name ++ ": most common = " ++ c.topFmt)
  String.intercalate "; " (numParts ++ catParts)

/-- LLMHandler.get_simple_summary (lines 247-258). -/
def get_simple_summary (df : DataFrame) : String :=
  if df.nrows = 1 ∧ df.columns.length = 1 then
    "The answer is: " ++ df.cell00
  else
    match df.columns with
    | [c] =>
      if isNumericDtype c.dtype then
        "Found " ++ toString df.nrows ++ " records with an average " ++ c.name ++
          " of " ++ c.meanFmt
      else "Found " ++ toString df.nrows ++ " records"
    | _ => "Found " ++ toString df.nrows ++ " records"

/-- The empty-result message of generate_response (line 196). -/
def noDataMsg : String :=
  "I couldn" ++ sqS ++
  "t find any data that matches your query. Please try rephrasing your question or check if the data exists."

/-- The narration prompt of generate_response (lines 199-217). -/
def response_prompt (original_query : String) (df : DataFrame) (query_type : String) :
    String :=
  "\nGenerate a clear, professional response to the user" ++ sqS ++
  "s health data query.\n\nOriginal Question: \"" ++ original_query ++
  "\"\nQuery Type: " ++ query_type ++ "\nResults Summary: " ++ toString df.nrows ++
  " rows, " ++ toString df.columns.length ++ " columns\n\nKey Statistics:\n" ++
  get_result_summary df ++
  "\n\nProvide a comprehensive but concise answer that:\n1. Directly addresses the user"
  ++ sqS ++ "s question\n2. Highlights key findings from the data\n3. Provides context and insights where relevant\n4. Uses appropriate medical/health terminology\n5. Suggests follow-up questions if appropriate\n\nResponse:\n"

/-- LLMHandler.generate_response (lines 192-224).  The second component
counts calls made to the model capability (0 or 1), so that the
short-circuit property of the empty-result path is statable. -/
def generate_response (model : Model) (original_query : String)
    (results : Option DataFrame) (query_type sql_query : String) : String × Nat :=
  match results with
  | none => (noDataMsg, 0)
  | some df =>
    if df.nrows = 0 then (noDataMsg, 0)
    else
      match model (response_prompt original_query df query_type) with
      | ModelOutcome.ok t => (pyStrip t, 1)
      | ModelOutcome.failure _ =>
        ("Based on your query, I found " ++ toString df.nrows ++
          " records. Here" ++ sqS ++ "s what the data shows:\n\n" ++
          get_simple_summary df, 1)

/-- The visualization-worthy intents (line 265). -/
def viz_types : List String := ["distribution", "correlation", "trend", "group"]

/-- LLMHandler.should_visualize (lines 260-266). -/
def should_visualize (query_type : String) (results : Option DataFrame) : Bool :=
  match results with
  | none => false
  | some df =>
    if df.nrows = 0 then false
    else decide (query_type ∈ viz_types) && decide (1 < df.nrows)

/-- LLMHandler.handle_query_error (lines 268-298): the error-fallback
Response, echoing a sample of the first dataset when one exists. -/
def handle_query_error (query error : String) (processed_data : List Dataset) :
    Response :=
  let response :=
    match processed_data with
    | [] => "I couldn" ++ sqS ++ "t process your query due to an error: " ++ error
    | d :: _ =>
      "\nI encountered an issue processing your query: \"" ++ query ++
      "\"\n\nError: " ++ error ++ "\n\nHere" ++ sqS ++
      "s a sample of your data to help you rephrase your question:\n\n" ++
      d.sampleHead3 ++
      "\n\nYou can try asking:\n- \"How many records are there?\"\n- \"What are the column names?\"\n- \"Show me basic statistics\"\n"
  { response := response, data := none, type := "error", sql_query := none,
    suggest_visualization := false }

/-- LLMHandler.process_natural_language_query (lines 60-89).  Classification
and SQL generation happen before the try block of the source, so their
exceptions propagate (Except.error); only exceptions raised inside the try
block, that is by the storage execute call, are converted into the
error-fallback Response. -/
def process_natural_language_query (model : Model) (execute : Executor)
    (query : String) (processed_data : List Dataset) : Except String Response :=
  let query_type := classify_query query
  let data_context := build_data_context processed_data
  match generate_sql_query model query data_context query_type with
  | Except.error e => Except.error e
  | Except.ok sql_query =>
    match execute sql_query with
    | Except.error e => Except.ok (handle_query_error query e processed_data)
    | Except.ok results =>
      Except.ok
        { response := (generate_response model query (some results) query_type sql_query).1,
          data := some results,
          type := query_type,
          sql_query := some sql_query,
          suggest_visualization := should_visualize query_type (some results) }

/-- Is an Except value a success. -/
def isOkE {α : Type} (e : Except String α) : Bool :=
  match e with
  | Except.ok _ => true
  | Except.error _ => false

def dfEmpty : DataFrame := { columns := [], nrows := 0, cell00 := "" }

def colNum : Column :=
  { name := "age", dtype := "int64", nullCount := 0, uniqueCount := 2,
    examplesFmt := "", meanFmt := "33.50", medianFmt := "33.50", topFmt := "N/A" }

def colObj : Column :=
  { name := "city", dtype := "object", nullCount := 0, uniqueCount := 2,
    examplesFmt := "", meanFmt := "", medianFmt := "", topFmt := "Pune" }

def dfA : DataFrame := { columns := [colNum], nrows := 1, cell00 := "42" }

def dfMixed : DataFrame := { columns := [colNum, colObj], nrows := 2, cell00 := "33" }

def dfNum3 : DataFrame := { columns := [colNum], nrows := 3, cell00 := "30" }

def c5AcceptInput : String := "SELECT * FROM x WHERE note = " ++ sqS ++ "DROP" ++ sqS

def dropT : List Char := ("DROP TABLE x").data

def r9 : Response :=
  { response := "", data := some dfA, type := "general",
    sql_query := some "", suggest_visualization := false }

/-! ## General helper lemmas -/

theorem find_first_aux {α : Type} (p : α → Bool) (l : List α) :
    ∀ (i : Nat) (a : α), l.get? i = some a → p a = true →
      ∃ k c, k ≤ i ∧ l.get? k = some c ∧ p c = true ∧ l.find? p = some c ∧
        ∀ m b, m < k → l.get? m = some b → p b = false := by
  induction l with
  | nil => intro i a h; simp at h
  | cons x xs ih =>
    intro i a hget hpa
    by_cases hx : p x = true
    · refine ⟨0, x, Nat.zero_le i, rfl, hx, List.find?_cons_of_pos xs hx, ?_⟩
      intro m b hm
      omega
    · cases i with
      | zero =>
        have : x = a := by simpa using hget
        rw [← this] at hpa
        exact absurd hpa hx
      | succ j =>
        have hget' : xs.get? j = some a := hget
        obtain ⟨k, c, hk, hgc, hpc, hfind, hmin⟩ := ih j a hget' hpa
        refine ⟨k + 1, c, by omega, hgc, hpc, ?_, ?_⟩
        · rw [List.find?_cons_of_neg xs hx]
          exact hfind
        · intro m b hm hgm
          cases m with
          | zero =>
            have : x = b := by simpa using hgm
            rw [← this]
            exact Bool.eq_false_iff.mpr hx
          | succ n => exact hmin n b (by omega) hgm

theorem classify_query_mem (q : String) : classify_query q ∈ allIntents := by
  rcases hf : query_patterns.find? (fun p => intentMatches q p) with _ | p
  · simp [classify_query, hf, allIntents]
  · have hp : p ∈ query_patterns := List.mem_of_find?_eq_some hf
    have h1 : classify_query q = p.1 := by simp [classify_query, hf]
    rw [h1]
    unfold query_patterns at hp
    fin_cases hp <;> decide

theorem ne_empty_of_data_ne_nil (s : String) (h : s.data ≠ []) : s ≠ "" := by
  intro he
  rw [he] at h
  exact h rfl

theorem data_ne_nil_append (s t : String) (hs : s.data ≠ []) : (s ++ t).data ≠ [] := by
  rw [String.data_append]
  intro h
  exact hs (List.append_eq_nil.mp h).1

/-! ## C4: the classifier is a deterministic total function with
first-match tie-breaking -/

/-- C4: classify is total and deterministic over the ordered rule table:
whenever an earlier-declared pattern and a later-declared pattern both
match, the returned intent is that of the first matching entry (so never
the later one); an unmatched question yields the literal general; and the
result always lies in the closed intent enumeration. -/
theorem classify_query_total_function (q : String) :
    (∀ i j pi pj, i < j →
        query_patterns.get? i = some pi → query_patterns.get? j = some pj →
        intentMatches q pi = true → intentMatches q pj = true →
        ∃ k pk, k ≤ i ∧ query_patterns.get? k = some pk ∧
          intentMatches q pk = true ∧ classify_query q = pk.1 ∧
          ∀ m pm, m < k → query_patterns.get? m = some pm →
            intentMatches q pm = false)
    ∧ ((∀ p ∈ query_patterns, intentMatches q p = false) →
        classify_query q = "general")
    ∧ classify_query q ∈ allIntents := by
  refine ⟨?_, ?_, classify_query_mem q⟩
  · intro i j pi pj hij hgi hgj hmi hmj
    obtain ⟨k, c, hk, hgk, hpc, hfind, hmin⟩ :=
      find_first_aux (fun p => intentMatches q p) query_patterns i pi hgi hmi
    exact ⟨k, c, hk, hgk, hpc, by simp [classify_query, hfind], hmin⟩
  · intro hall
    have hnone : query_patterns.find? (fun p => intentMatches q p) = none := by
      rw [List.find?_eq_none]
      intro x hx
      simp [hall x hx]
    simp [classify_query, hnone]

/-- C4 witness: the question total sum matches both the count entry
(index 0, keyword total) and the sum entry (index 4), and classification
returns the first matching entry, count. -/
theorem classify_query_total_function_witness :
    ∃ k pk, k ≤ 0 ∧ query_patterns.get? k = some pk ∧
      intentMatches ("total sum") pk = true ∧
      classify_query ("total sum") = pk.1 ∧
      ∀ m pm, m < k → query_patterns.get? m = some pm →
        intentMatches ("total sum") pm = false :=
  (classify_query_total_function ("total sum")).1 0 4
    ("count", ["how many", "count", "number of", "total"])
    ("sum", ["sum", "total", "aggregate"])
    (by omega) rfl rfl (by decide) (by decide)

/-! ## C10: a standalone total always classifies as count, never sum -/

/-- C10: any question whose lowercased text contains the standalone word
total (with word boundaries) is classified count — the count entry is
declared first in the rule table and lists total among its keywords, so the
sum entry (which also lists total) can never win. -/
theorem classify_query_standalone_total (q : String)
    (h : wordSearch (lowerL q.data) (("total").data) = true) :
    classify_query q = "count" ∧ classify_query q ≠ "sum" := by
  have hm : intentMatches q
      ("count", ["how many", "count", "number of", "total"]) = true := by
    unfold intentMatches reWordAltSearch
    exact List.any_eq_true.mpr ⟨"total", by decide, h⟩
  have hfind : query_patterns.find? (fun p => intentMatches q p) =
      some ("count", ["how many", "count", "number of", "total"]) := by
    unfold query_patterns
    exact List.find?_cons_of_pos _ hm
  constructor
  · simp [classify_query, hfind]
  · simp [classify_query, hfind]

/-- C10 witness at the concrete question Total patients. -/
theorem classify_query_standalone_total_witness :
    classify_query ("Total patients") = "count" ∧
    classify_query ("Total patients") ≠ "sum" :=
  classify_query_standalone_total ("Total patients") (by decide)

/-! ## C7: the visualization selector -/

/-- C7: should_visualize is true exactly when the result set exists, is
non-empty with more than one row, and the intent is one of distribution,
correlation, trend, group.  In particular it is false for every one-row
result and true for a five-row trend result. -/
theorem should_visualize_iff (query_type : String) (results : Option DataFrame) :
    should_visualize query_type results = true ↔
      ∃ df, results = some df ∧ df.nrows ≠ 0 ∧ 1 < df.nrows ∧
        query_type ∈ viz_types := by
  cases results with
  | none => simp [should_visualize]
  | some df =>
    by_cases h0 : df.nrows = 0
    · simp [should_visualize, h0]
    · simp only [should_visualize, if_neg h0, Bool.and_eq_true, decide_eq_true_eq]
      constructor
      · rintro ⟨hmem, hlt⟩
        exact ⟨df, rfl, h0, hlt, hmem⟩
      · rintro ⟨df', hdf, _, hlt, hmem⟩
        cases hdf
        exact ⟨hmem, hlt⟩

/-! ## C3: the empty-result narration path -/

/-- C3 counterexample: on a zero-row result the narrator short-circuits with
zero model calls, but the fixed message it returns is the long apology
sentence of line 196, not the string the claim states. -/
theorem generate_response_empty_cex :
    generate_response (fun _ => ModelOutcome.ok "x") ("q") (some dfEmpty)
      ("count") ("s") = (noDataMsg, 0) ∧
    noDataMsg ≠ "No data found for this query" :=
  ⟨rfl, by decide⟩

/-- C3 amended: for every model, question, intent and SQL text, a zero-row
result makes generate_response return the fixed line-196 message with zero
calls to the model capability. -/
theorem generate_response_empty_short_circuit (model : Model)
    (q query_type sql : String) (df : DataFrame) (h : df.nrows = 0) :
    generate_response model q (some df) query_type sql = (noDataMsg, 0) := by
  simp [generate_response, h]

/-- C3 witness at a concrete empty result. -/
theorem generate_response_empty_short_circuit_witness :
    generate_response (fun _ => ModelOutcome.ok "x") ("q") (some dfEmpty)
      ("count") ("s") = (noDataMsg, 0) :=
  generate_response_empty_short_circuit (fun _ => ModelOutcome.ok "x") ("q")
    ("count") ("s") dfEmpty rfl

/-! ## C8: the narration fallback template -/

/-- C8 counterexample: dfMixed has exactly one numeric column (plus one
object column) and two rows, yet the fallback summary is the bare Found 2
records with no mean extension — the mean requires the result to have
exactly one column overall — and the narration fallback also wraps the
summary in the Based on your query preamble the claim omits. -/
theorem get_simple_summary_cex :
    (dfMixed.columns.filter (fun c => isNumericDtype c.dtype)).length = 1 ∧
    get_simple_summary dfMixed = "Found 2 records" ∧
    (generate_response (fun _ => ModelOutcome.failure "down") ("q")
        (some dfMixed) ("count") ("s")).1 =
      "Based on your query, I found 2 records. Here" ++ sqS ++
        "s what the data shows:\n\nFound 2 records" :=
  ⟨rfl, rfl, rfl⟩

/-- C8 amended: on narration-model failure over a non-empty result the
narrative is the Based on your query preamble followed by the simple
summary, and the simple summary is: The answer is cell00 for a one-row
one-column result; for a single-column multi-row result, Found n records
extended with the mean exactly when that single column is numeric; and the
bare Found n records whenever the result has more than one column (even if
exactly one of them is numeric). -/
theorem generate_response_model_failure_fallback (model : Model)
    (q query_type sql e : String) (df : DataFrame) (h0 : ¬ df.nrows = 0)
    (hm : model (response_prompt q df query_type) = ModelOutcome.failure e) :
    (generate_response model q (some df) query_type sql).1 =
      "Based on your query, I found " ++ toString df.nrows ++
        " records. Here" ++ sqS ++ "s what the data shows:\n\n" ++
        get_simple_summary df
    ∧ (∀ c, df.columns = [c] → df.nrows = 1 →
        get_simple_summary df = "The answer is: " ++ df.cell00)
    ∧ (∀ c, df.columns = [c] → ¬ df.nrows = 1 →
        get_simple_summary df =
          (if isNumericDtype c.dtype then
            "Found " ++ toString df.nrows ++ " records with an average " ++
              c.name ++ " of " ++ c.meanFmt
          else "Found " ++ toString df.nrows ++ " records"))
    ∧ (¬ df.columns.length = 1 →
        get_simple_summary df = "Found " ++ toString df.nrows ++ " records") := by
  refine ⟨by simp [generate_response, h0, hm], ?_, ?_, ?_⟩
  · intro c hc h1
    simp [get_simple_summary, hc, h1]
  · intro c hc h1
    simp [get_simple_summary, hc, h1]
  · intro hlen
    rcases hcols : df.columns with _ | ⟨c, _ | ⟨c2, cs⟩⟩
    · simp [get_simple_summary, hcols]
    · rw [hcols] at hlen
      simp at hlen
    · simp [get_simple_summary, hcols]

/-- C8 witness: a three-row single numeric column result under a failing
narration model. -/
theorem generate_response_model_failure_fallback_witness :
    (generate_response (fun _ => ModelOutcome.failure "down") ("q")
        (some dfNum3) ("count") ("s")).1 =
      "Based on your query, I found " ++ toString dfNum3.nrows ++
        " records. Here" ++ sqS ++ "s what the data shows:\n\n" ++
        get_simple_summary dfNum3 :=
  (generate_response_model_failure_fallback (fun _ => ModelOutcome.failure "down")
    ("q") ("count") ("s") ("down") dfNum3 (by decide) rfl).1

/-! ## Process-level helpers -/

theorem process_eq (model : Model) (execute : Executor) (query : String)
    (processed_data : List Dataset) :
    process_natural_language_query model execute query processed_data =
      (match generate_sql_query model query (build_data_context processed_data)
          (classify_query query) with
      | Except.error e => Except.error e
      | Except.ok sql =>
        match execute sql with
        | Except.error e => Except.ok (handle_query_error query e processed_data)
        | Except.ok results =>
          Except.ok
            { response := (generate_response model query (some results)
                (classify_query query) sql).1,
              data := some results,
              type := classify_query query,
              sql_query := some sql,
              suggest_visualization := should_visualize (classify_query query)
                (some results) }) := rfl

theorem handle_query_error_type (query error : String)
    (processed_data : List Dataset) :
    (handle_query_error query error processed_data).type = "error" := by
  simp [handle_query_error]

theorem handle_query_error_response_ne_empty (query error : String)
    (processed_data : List Dataset) :
    (handle_query_error query error processed_data).response ≠ "" := by
  cases processed_data with
  | nil =>
    apply ne_empty_of_data_ne_nil
    repeat apply data_ne_nil_append
    decide
  | cons d ds =>
    apply ne_empty_of_data_ne_nil
    repeat apply data_ne_nil_append
    decide

/-! ## C1: which failures the orchestrator recovers from -/

/-- C1 counterexample: a failing model capability makes the top-level
pipeline operation itself raise (return Except.error) — the wrapped
generation failure propagates to the caller instead of being converted
into a Response. -/
theorem process_propagates_generation_failure :
    process_natural_language_query (fun _ => ModelOutcome.failure "boom")
      (fun _ => Except.ok dfA) ("q") [] =
    Except.error ("Failed to generate SQL query: boom") := rfl

/-- C1 amended: the pipeline returns a Response exactly when SQL generation
(the model call plus sanitization, performed before the try block)
succeeds; execution failures, and only they, are converted locally into the
error-fallback Response, so generation and sanitizer failures propagate as
exceptions. -/
theorem process_ok_iff_generation_ok (model : Model) (execute : Executor)
    (query : String) (processed_data : List Dataset) :
    isOkE (process_natural_language_query model execute query processed_data) =
      isOkE (generate_sql_query model query (build_data_context processed_data)
        (classify_query query)) := by
  rcases hg : generate_sql_query model query (build_data_context processed_data)
      (classify_query query) with e | sql
  · simp [process_eq, hg, isOkE]
  · rcases hex : execute sql with e | res
    · simp [process_eq, hg, hex, isOkE]
    · simp [process_eq, hg, hex, isOkE]

/-! ## C2: the unsafe-SQL scenario -/

/-- C2 counterexample: when the generated SQL is DELETE FROM patients the
sanitizer does fail and the storage layer is never reached (the executor
here would succeed), but the pipeline does not produce the error-fallback
Response: it raises the wrapped generation exception. -/
theorem process_unsafe_sql_cex :
    process_natural_language_query
      (fun _ => ModelOutcome.ok "DELETE FROM patients")
      (fun _ => Except.ok dfA) ("q") [] =
    Except.error
      ("Failed to generate SQL query: Dangerous SQL operation detected: DELETE") :=
  rfl

/-- C2 amended: for every executor, question and dataset list, a model
producing DELETE FROM patients makes the sanitizer fail with the DELETE
ValueError, and the pipeline returns that failure as an exception without
ever invoking the storage execute operation (the outcome is independent of
the executor), rather than transitioning to the error-fallback Response. -/
theorem process_unsafe_sql_never_executes (execute : Executor) (query : String)
    (processed_data : List Dataset) :
    clean_sql_query ("DELETE FROM patients") =
      Except.error ("Dangerous SQL operation detected: DELETE")
    ∧ process_natural_language_query
        (fun _ => ModelOutcome.ok "DELETE FROM patients")
        execute query processed_data =
      Except.error
        ("Failed to generate SQL query: Dangerous SQL operation detected: DELETE") :=
  ⟨rfl, rfl⟩

/-! ## C6: the intent tag carried by the Response -/

def rOk : Response :=
  { response := "SELECT 1", data := some dfA, type := "general",
    sql_query := some "SELECT 1", suggest_visualization := false }

/-- C6 counterexample: on the error-fallback path the type field of the
returned Response is the string error, which lies outside the closed
intent enumeration. -/
theorem process_error_type_outside_enumeration :
    process_natural_language_query (fun _ => ModelOutcome.ok "SELECT 1")
      (fun _ => Except.error "no such table") ("q") [] =
      Except.ok (handle_query_error ("q") ("no such table") []) ∧
    (handle_query_error ("q") ("no such table") []).type = "error" ∧
    "error" ∉ allIntents :=
  ⟨rfl, rfl, by decide⟩

/-- C6 amended: whenever the pipeline returns a Response, its type field is
either a member of the closed intent enumeration (on the success path,
where it is the classified intent) or the extra string error (on the
error-fallback path). -/
theorem process_type_enumeration (model : Model) (execute : Executor)
    (query : String) (processed_data : List Dataset) (r : Response)
    (h : process_natural_language_query model execute query processed_data =
      Except.ok r) :
    r.type ∈ allIntents ∨ r.type = "error" := by
  rw [process_eq] at h
  rcases hg : generate_sql_query model query (build_data_context processed_data)
      (classify_query query) with e | sql
  · simp [hg] at h
  · simp [hg] at h
    rcases hex : execute sql with e | res
    · simp [hex] at h
      rw [← h]
      exact Or.inr (handle_query_error_type query e processed_data)
    · simp [hex] at h
      rw [← h]
      exact Or.inl (classify_query_mem query)

/-- C6 witness: the success scenario, whose Response carries the intent
general, a member of the enumeration. -/
theorem process_type_enumeration_witness :
    rOk.type ∈ allIntents ∨ rOk.type = "error" :=
  process_type_enumeration (fun _ => ModelOutcome.ok "SELECT 1")
    (fun _ => Except.ok dfA) ("q") [] rOk rfl

/-! ## C9: non-emptiness of the narrative -/

/-- C9 counterexample: a narration model call that succeeds with empty text
produces a returned Response whose narrative is the empty string. -/
theorem process_empty_narrative_cex :
    process_natural_language_query (fun _ => ModelOutcome.ok "")
      (fun _ => Except.ok dfA) ("q") [] = Except.ok r9 ∧
    r9.response = "" :=
  ⟨rfl, rfl⟩

/-- C9 amended: every Response returned by the pipeline has non-empty
narrative text — the empty-result, execution-failure and narration-failure
paths all produce fixed non-empty messages — except on the success
narration path when the model itself returns whitespace-only text, which is
the only way an empty narrative can be returned. -/
theorem process_empty_narrative_only_from_model (model : Model)
    (execute : Executor) (query : String) (processed_data : List Dataset)
    (r : Response)
    (hok : process_natural_language_query model execute query processed_data =
      Except.ok r)
    (hempty : r.response = "") :
    ∃ sql df t, execute sql = Except.ok df ∧
      model (response_prompt query df (classify_query query)) =
        ModelOutcome.ok t ∧
      pyStrip t = "" := by
  rw [process_eq] at hok
  rcases hg : generate_sql_query model query (build_data_context processed_data)
      (classify_query query) with e | sql
  · simp [hg] at hok
  · simp [hg] at hok
    rcases hex : execute sql with e | res
    · simp [hex] at hok
      rw [← hok] at hempty
      exact absurd hempty
        (handle_query_error_response_ne_empty query e processed_data)
    · simp [hex] at hok
      rw [← hok] at hempty
      simp only [] at hempty
      by_cases h0 : res.nrows = 0
      · rw [show (generate_response model query (some res)
            (classify_query query) sql).1 = noDataMsg by
              simp [generate_response, h0]] at hempty
        exact absurd (ne_empty_of_data_ne_nil noDataMsg (by decide) |>.elim hempty)
          (fun h => h)
      · rcases hm : model (response_prompt query res (classify_query query))
            with t | e2
        · refine ⟨sql, res, t, hex, hm, ?_⟩
          rw [show (generate_response model query (some res)
              (classify_query query) sql).1 = pyStrip t by
                simp [generate_response, h0, hm]] at hempty
          exact hempty
        · rw [show (generate_response model query (some res)
              (classify_query query) sql).1 =
              "Based on your query, I found " ++ toString res.nrows ++
                " records. Here" ++ sqS ++ "s what the data shows:\n\n" ++
                get_simple_summary res by
                simp [generate_response, h0, hm]] at hempty
          have hne : ("Based on your query, I found " ++ toString res.nrows ++
              " records. Here" ++ sqS ++ "s what the data shows:\n\n" ++
              get_simple_summary res) ≠ "" := by
            apply ne_empty_of_data_ne_nil
            repeat apply data_ne_nil_append
            decide
          exact absurd hempty hne

/-- C9 witness: the empty-model-text scenario satisfies the amended
characterization. -/
theorem process_empty_narrative_only_from_model_witness :
    ∃ (sql : String) (df : DataFrame) (t : String),
      (Except.ok dfA : Except String DataFrame) = Except.ok df ∧
      ModelOutcome.ok "" = ModelOutcome.ok t ∧
      pyStrip t = "" :=
  process_empty_narrative_only_from_model (fun _ => ModelOutcome.ok "")
    (fun _ => Except.ok dfA) ("q") [] r9 rfl rfl

/-! ## C5: sanitizer keyword rejection.

The universal half quantifies over all inputs containing the literal
DROP TABLE x, so we prove that the artifact-stripping phase of the
sanitizer preserves any occurrence of that literal: the fence
substitutions only delete characters belonging to a region that starts
with a backtick, and the semicolon/whitespace strips only touch the ends
of the text, while the literal is backtick-free, starts with a
non-whitespace D and ends with a non-whitespace non-semicolon x. -/

theorem dropWhileLengthLe (p : Char → Bool) (l : List Char) :
    (l.dropWhile p).length ≤ l.length := by
  induction l with
  | nil => simp [List.dropWhile]
  | cons a l ih =>
    rw [List.dropWhile_cons]
    by_cases h : p a = true
    · rw [if_pos h]
      exact Nat.le_trans ih (by simp)
    · rw [if_neg h]

theorem dropWhile_append_cons (p : Char → Bool) (u : List Char) (h : Char)
    (v : List Char) (hh : p h = false) :
    (u ++ h :: v).dropWhile p = u.dropWhile p ++ h :: v := by
  induction u with
  | nil => simp [List.dropWhile_cons, hh]
  | cons a u ih =>
    rw [List.cons_append, List.dropWhile_cons, List.dropWhile_cons]
    by_cases ha : p a = true
    · rw [if_pos ha, if_pos ha, ih]
    · rw [if_neg ha, if_neg ha, List.cons_append]

theorem subFenceAux_nil (tag : List Char) (n : Nat) :
    subFenceAux tag n [] = [] := by
  cases n <;> rfl

theorem subFenceAux_cons (tag : List Char) (n : Nat) (c : Char)
    (cs : List Char) :
    subFenceAux tag (n + 1) (c :: cs) =
      if tag.isPrefixOf (c :: cs) then
        subFenceAux tag n ((cs.drop (tag.length - 1)).dropWhile Char.isWhitespace)
      else c :: subFenceAux tag n cs := rfl

theorem isPrefixOf_cons_false (tag : List Char) (hb : tag.head? = some btick)
    (c : Char) (hc : ¬ c = btick) (l : List Char) :
    tag.isPrefixOf (c :: l) = false := by
  cases tag with
  | nil => simp at hb
  | cons t ts =>
    have ht : t = btick := by simpa using hb
    subst ht
    rw [show (btick :: ts).isPrefixOf (c :: l) =
      (btick == c && ts.isPrefixOf l) from rfl]
    have hbc : (btick == c) = false :=
      beq_eq_false_iff_ne.mpr (fun h => hc h.symm)
    rw [hbc, Bool.false_and]

theorem subFenceAux_append_no_btick (tag : List Char)
    (hb : tag.head? = some btick) :
    ∀ (u : List Char), (∀ c ∈ u, ¬ c = btick) →
      ∀ (n : Nat) (v : List Char), u.length + v.length ≤ n →
        subFenceAux tag n (u ++ v) = u ++ subFenceAux tag (n - u.length) v := by
  intro u
  induction u with
  | nil =>
    intro _ n v _
    simp
  | cons x u ih =>
    intro hu n v hlen
    cases n with
    | zero => simp at hlen
    | succ m =>
      have hx : ¬ x = btick := hu x (by simp)
      have hpre : tag.isPrefixOf (x :: (u ++ v)) = false :=
        isPrefixOf_cons_false tag hb x hx (u ++ v)
      rw [List.cons_append, subFenceAux_cons, if_neg (by rw [hpre]; simp)]
      rw [ih (fun c hc => hu c (by simp [hc])) m v (by simp at hlen; omega)]
      have hms : m + 1 - (x :: u).length = m - u.length := by
        simp only [List.length_cons]
        omega
      rw [List.cons_append, hms]

theorem dropT_reverse_eq : dropT.reverse = 'x' :: (" ELBAT PORD").data := by
  decide

theorem subFenceAux_keeps (tag : List Char) (hb : tag.head? = some btick)
    (hD : ('D' ∈ tag) → False) :
    ∀ (n : Nat) (s : List Char), s.length ≤ n → dropT <:+: s →
      dropT <:+: subFenceAux tag n s := by
  intro n
  induction n with
  | zero =>
    intro s hlen hinf
    have hs : s = [] := List.length_eq_zero.mp (Nat.le_zero.mp hlen)
    subst hs
    have hd : dropT = [] := by simpa using hinf
    exact absurd hd (by decide)
  | succ m ih =>
    intro s hlen hinf
    obtain ⟨a, b, hab⟩ := hinf
    cases a with
    | nil =>
      have hlen2 : dropT.length + b.length ≤ m + 1 := by
        rw [← hab] at hlen
        simpa [List.length_append] using hlen
      rw [← hab, List.nil_append,
        subFenceAux_append_no_btick tag hb dropT (by decide) (m + 1) b hlen2]
      exact ⟨[], subFenceAux tag (m + 1 - dropT.length) b, rfl⟩
    | cons c a' =>
      have hs : s = c :: (a' ++ (dropT ++ b)) := by
        rw [← hab]
        simp [List.append_assoc]
      by_cases hpre : tag.isPrefixOf s = true
      · have htag_len : 1 ≤ tag.length := by
          cases tag with
          | nil => simp at hb
          | cons t ts => simp
        have hle : tag.length ≤ a'.length + 1 := by
          by_contra hgt
          push_neg at hgt
          obtain ⟨r, hr⟩ := List.isPrefixOf_iff_prefix.mp hpre
          have h1 : s.get? (a'.length + 1) = some 'D' := by
            rw [hs]
            rw [show (c :: (a' ++ (dropT ++ b))).get? (a'.length + 1) =
              (a' ++ (dropT ++ b)).get? a'.length from rfl]
            rw [List.get?_append_right (Nat.le_refl a'.length)]
            rw [Nat.sub_self]
            rfl
          have h2 : s.get? (a'.length + 1) = tag.get? (a'.length + 1) := by
            rw [← hr]
            exact List.get?_append hgt
          exact hD (List.get?_mem (h2.symm.trans h1))
        rw [hs] at hpre
        rw [hs, subFenceAux_cons, if_pos hpre]
        have hdrop : (a' ++ (dropT ++ b)).drop (tag.length - 1) =
            a'.drop (tag.length - 1) ++ (dropT ++ b) :=
          List.drop_append_of_le_length (by omega)
        have hform : ((a' ++ (dropT ++ b)).drop (tag.length - 1)).dropWhile
              Char.isWhitespace =
            ((a'.drop (tag.length - 1)).dropWhile Char.isWhitespace ++ dropT) ++ b := by
          rw [hdrop]
          rw [show dropT ++ b = 'D' :: ((("ROP TABLE x").data) ++ b) from rfl]
          rw [dropWhile_append_cons Char.isWhitespace _ 'D' _ (by decide)]
          rw [List.append_assoc]
          rfl
        rw [hform]
        apply ih
        · have hlen1 := dropWhileLengthLe Char.isWhitespace
            ((a' ++ (dropT ++ b)).drop (tag.length - 1))
          rw [hform] at hlen1
          have hlen3 : s.length = (a' ++ (dropT ++ b)).length + 1 := by
            rw [hs]
            simp
          have hlen4 : ((a' ++ (dropT ++ b)).drop (tag.length - 1)).length =
              (a' ++ (dropT ++ b)).length - (tag.length - 1) := by
            simp
          omega
        · exact ⟨(a'.drop (tag.length - 1)).dropWhile Char.isWhitespace, b, rfl⟩
      · have hpre' : tag.isPrefixOf s = false := by
          revert hpre
          cases tag.isPrefixOf s <;> simp
        rw [hs] at hpre'
        rw [hs, subFenceAux_cons, if_neg (by rw [hpre']; simp)]
        have hinf' : dropT <:+: (a' ++ (dropT ++ b)) :=
          ⟨a', b, by simp [List.append_assoc]⟩
        have hlen' : (a' ++ (dropT ++ b)).length ≤ m := by
          rw [hs] at hlen
          simp at hlen
          simp [List.length_append]
          omega
        exact List.infix_cons (ih _ hlen' hinf')

theorem subFence_keeps (tag : List Char) (hb : tag.head? = some btick)
    (hD : ('D' ∈ tag) → False) (s : List Char) (h : dropT <:+: s) :
    dropT <:+: subFence tag s :=
  subFenceAux_keeps tag hb hD s.length s (Nat.le_refl s.length) h

theorem infix_reverse_of (t s : List Char) (h : t <:+: s) :
    t.reverse <:+: s.reverse := by
  obtain ⟨a, b, hab⟩ := h
  exact ⟨b.reverse, a.reverse, by rw [← hab]; simp [List.append_assoc]⟩

theorem infix_map_of (f : Char → Char) (t s : List Char) (h : t <:+: s) :
    t.map f <:+: s.map f := by
  obtain ⟨a, b, hab⟩ := h
  exact ⟨a.map f, b.map f, by rw [← hab]; simp⟩

theorem dropWhileFront_keeps (p : Char → Bool) (hD : p 'D' = false)
    (s : List Char) (h : dropT <:+: s) : dropT <:+: s.dropWhile p := by
  obtain ⟨a, b, hab⟩ := h
  have hs : s = a ++ ('D' :: ((("ROP TABLE x").data) ++ b)) := by
    rw [← hab, List.append_assoc]
    rfl
  rw [hs, dropWhile_append_cons p a 'D' _ hD]
  exact ⟨a.dropWhile p, b, by rw [List.append_assoc]; rfl⟩

theorem dropWhileBack_keeps (p : Char → Bool) (hx : p 'x' = false)
    (s : List Char) (h : dropT <:+: s) :
    dropT <:+: (s.reverse.dropWhile p).reverse := by
  have h1 : dropT.reverse <:+: s.reverse := infix_reverse_of _ _ h
  obtain ⟨a, b, hab⟩ := h1
  rw [dropT_reverse_eq] at hab
  have h2 : s.reverse.dropWhile p =
      a.dropWhile p ++ ('x' :: ((" ELBAT PORD").data ++ b)) := by
    rw [← hab, List.append_assoc, List.cons_append]
    exact dropWhile_append_cons p a 'x' _ hx
  have h3 : dropT.reverse <:+: s.reverse.dropWhile p := by
    rw [h2, dropT_reverse_eq]
    exact ⟨a.dropWhile p, b, by rw [List.append_assoc, List.cons_append]⟩
  have h4 := infix_reverse_of _ _ h3
  simpa using h4

theorem rstripSemis_keeps (s : List Char) (h : dropT <:+: s) :
    dropT <:+: rstripSemis s :=
  dropWhileBack_keeps (fun c => c == ';') (by decide) s h

theorem stripWs_keeps (s : List Char) (h : dropT <:+: s) :
    dropT <:+: stripWs s :=
  dropWhileBack_keeps Char.isWhitespace (by decide) _
    (dropWhileFront_keeps Char.isWhitespace (by decide) s h)

theorem cleanStrip_keeps (s : List Char) (h : dropT <:+: s) :
    dropT <:+: cleanStrip s :=
  stripWs_keeps _ (rstripSemis_keeps _
    (subFence_keeps fenceTicks rfl (by decide) _
      (subFence_keeps fenceSql rfl (by decide) _ h)))

theorem containsSub_of_infix (s t : List Char) (h : t <:+: s) :
    containsSub s t = true := by
  obtain ⟨a, b, hab⟩ := h
  apply List.any_eq_true.mpr
  refine ⟨a.length, List.mem_range.mpr ?_, ?_⟩
  · rw [← hab]
    simp [List.length_append]
    omega
  · rw [← hab, List.append_assoc,
      List.drop_append_of_le_length (Nat.le_refl a.length),
      List.drop_length, List.nil_append]
    exact List.isPrefixOf_iff_prefix.mpr ⟨b, rfl⟩

theorem drop_infix_upper (s : List Char) (h : dropT <:+: s) :
    ("DROP").data <:+: upperL s := by
  have h1 := infix_map_of Char.toUpper dropT s h
  have h2 : ("DROP").data <:+: dropT.map Char.toUpper :=
    ⟨[], (" TABLE X").data, by decide⟩
  exact h2.trans h1

/-- C5: the sanitizer rejects, with the DROP ValueError, every input
containing the literal DROP TABLE x whose stripped uppercased text does not
begin with SELECT, and accepts unchanged the SELECT statement that merely
mentions DROP inside a string literal (keyword presence inside a
SELECT-prefixed statement causes no rejection). -/
theorem clean_sql_query_drop_behavior :
    (∀ q : String, dropT <:+: q.data →
        ("SELECT".data).isPrefixOf (upperL (cleanStrip q.data)) = false →
        clean_sql_query q =
          Except.error ("Dangerous SQL operation detected: DROP"))
    ∧ clean_sql_query c5AcceptInput = Except.ok c5AcceptInput := by
  constructor
  · intro q hinf hsel
    have h1 : dropT <:+: cleanStrip q.data := cleanStrip_keeps q.data hinf
    have h3 : containsSub (upperL (cleanStrip q.data)) (("DROP").data) = true :=
      containsSub_of_infix _ _ (drop_infix_upper _ h1)
    have hfind : dangerous_keywords.find?
        (fun kw => containsSub (upperL (cleanStrip q.data)) kw.data &&
          !(("SELECT".data).isPrefixOf (upperL (cleanStrip q.data)))) =
        some "DROP" := by
      unfold dangerous_keywords
      apply List.find?_cons_of_pos
      rw [show (("DROP" : String)).data = ("DROP").data from rfl]
      rw [h3, hsel]
      rfl
    simp [clean_sql_query, hfind]
  · rfl

/-- C5 witness at the concrete rejected input DROP TABLE x. -/
theorem clean_sql_query_drop_behavior_witness :
    clean_sql_query ("DROP TABLE x") =
      Except.error ("Dangerous SQL operation detected: DROP") :=
  clean_sql_query_drop_behavior.1 ("DROP TABLE x") ⟨[], [], rfl⟩ rfl

end MedicoAI
